import Mathlib

/-! Shallow embedding of the Synapse-Launchpad partner-recommender service
(`services/partner-recommender/src/inference_engine.py`, `model_manager.py`,
`feature_client.py`, `config.py`), together with theorems settling the
specification's claims about it.  Python floats are modelled as real numbers;
the `async` orchestration is sequentialized (`asyncio.gather` returns results
in task order, and each per-pair computation is a pure function of its
arguments, so result values are unchanged by concurrency). -/

namespace PartnerRecommender

/-- The `traction_metrics` dict of a feature record; the engine reads every
field with `.get(key, 0)`, so a missing key behaves exactly as the value 0. -/
structure TractionMetrics where
  funding_amount : ℝ
  employee_count : ℝ
  growth_rate : ℝ
  market_sentiment : ℝ

/-- A company feature record as consumed by the inference engine
(`company_id`, `user_overlap_score`, `traction_metrics`, `culture_vector`). -/
structure CompanyFeatures where
  company_id : String
  user_overlap_score : ℝ
  traction_metrics : TractionMetrics
  culture_vector : List ℝ

noncomputable section

/-- The `config.py` fields the inference engine reads (the remaining fields
configure networking, training and monitoring and are not consumed by the
code under verification). -/
structure Config where
  similarity_threshold : ℝ
  cache_ttl_seconds : ℕ

/-- Default configuration from `config.py`: `SIMILARITY_THRESHOLD` defaults to
`0.1` and `CACHE_TTL_SECONDS` defaults to `3600`. -/
def defaultConfig : Config :=
  { similarity_threshold := 0.1, cache_ttl_seconds := 3600 }

/-- Input to the two-tower model: the `combined_features` dict assembled in
`_calculate_match_score`. -/
structure ModelInput where
  dense : List ℝ
  sparse_a : List ℤ
  sparse_b : List ℤ

/-- A loaded HugeCTR inference session, abstracted to the scoring function it
implements (`self.model.predict(...)` returning `predictions[0][0]`). -/
def Model := ModelInput → ℝ

/-- The in-memory state of `ModelManager` (`model_manager.py`). -/
structure ModelManager where
  model : Option Model
  model_loaded : Bool
  model_version : String

/-- `ModelManager.load_model`.  `artifact` is the outcome of
`hugectr.inference.CreateInferenceSession` on the artifact directory:
`some m` when the artifact loads and validates, `none` when that call raises.
On success the session is installed and `model_loaded` is set to `True`; on
failure `model_loaded` is set to `False`, `self.model` is left as it was (the
assignment never happened), and the exception propagates, here reported as
the `Bool` component `false`. -/
def loadModel (artifact : Option Model) (st : ModelManager) : ModelManager × Bool :=
  match artifact with
  | some m => ({ st with model := some m, model_loaded := true }, true)
  | none => ({ st with model_loaded := false }, false)

/-- `ModelManager.reload_model`: if a model is present it is first deleted
(`del self.model; self.model = None; self.model_loaded = False`), and only
then is `load_model` called; an exception from `load_model` propagates. -/
def reloadModel (artifact : Option Model) (st : ModelManager) : ModelManager × Bool :=
  let st1 := if st.model.isSome then { st with model := none, model_loaded := false } else st
  loadModel artifact st1

/-- The `loaded`/`version` components of the dict returned by
`ModelManager.get_model_status` (the GPU and filesystem components read the
environment and are not modelled). -/
structure ModelStatus where
  loaded : Bool
  version : String

/-- `ModelManager.get_model_status`, restricted to the modelled fields. -/
def getModelStatus (st : ModelManager) : ModelStatus :=
  { loaded := st.model_loaded, version := st.model_version }

/-- `ModelManager.predict`: raises `ValueError("Model not loaded")` when
`model_loaded` is false; any exception raised inside (including calling
`predict` on a `None` model) is logged and re-raised, i.e. surfaces as
`Except.error`. -/
def ModelManager.predict (st : ModelManager) (input : ModelInput) : Except String ℝ :=
  if st.model_loaded then
    match st.model with
    | some m => .ok (m input)
    | none => .error "NoneType has no attribute predict"
  else
    .error "Model not loaded"

/-- Abstract state of the external feature service as seen through
`FeatureStoreClient` (`feature_client.py`): `companies` is the id list
`get_all_companies` yields, and `features cid` is the record
`get_company_features cid` returns, where `none` covers both a missing
record and the empty (falsy) dict the client returns on every non-200
response or transport error. -/
structure FeatureStore where
  companies : List String
  features : String → Option CompanyFeatures

/-- `FeatureStoreClient.get_batch_features`: a map over the requested ids
that omits every id without a record. -/
def getBatchFeatures (s : FeatureStore) (ids : List String) :
    String → Option CompanyFeatures :=
  fun cid => if cid ∈ ids then s.features cid else none

/-- `FeatureStoreClient._prepare_features_for_model`: five dense features
(with the documented normalizations) padded with zeros to length 13, and a
sparse slot list headed by `hash(company_id) % 100000` padded with zeros to
length 26.  `pyHash` abstracts Python's builtin string `hash`, which is
seeded per process. -/
def prepareFeaturesForModel (pyHash : String → ℤ) (f : CompanyFeatures) :
    List ℝ × List ℤ :=
  ([f.user_overlap_score,
    f.traction_metrics.funding_amount / 1000000,
    f.traction_metrics.employee_count / 1000,
    f.traction_metrics.growth_rate / 100,
    f.traction_metrics.market_sentiment] ++ List.replicate 8 0,
   pyHash f.company_id % 100000 :: List.replicate 25 0)

/-- The state threaded through `PartnerInferenceEngine`: its model manager,
the feature-store state behind its feature client, and its configuration. -/
structure EngineState where
  model_manager : ModelManager
  feature_client : FeatureStore
  config : Config
  pyHash : String → ℤ

/-- Sum of squares of a vector. -/
def normSq (v : List ℝ) : ℝ := (v.map (fun x => x * x)).sum

/-- `np.linalg.norm`: the Euclidean norm. -/
def norm (v : List ℝ) : ℝ := Real.sqrt (normSq v)

/-- Dot product of two vectors of equal length. -/
def dotp (a b : List ℝ) : ℝ := (List.zipWith (· * ·) a b).sum

/-- `sklearn.metrics.pairwise.cosine_similarity` of two vectors. -/
def cosineSim (a b : List ℝ) : ℝ := dotp a b / (norm a * norm b)

/-- The similarity fallback inside `_calculate_match_score` (taken when no
model is loaded): `0.0` when either culture vector has zero norm, otherwise
`max(0.0, min(1.0, cosine_similarity))`. -/
def fallbackScore (a b : List ℝ) : ℝ :=
  if norm a = 0 ∨ norm b = 0 then 0
  else max 0 (min 1 (cosineSim a b))

/-- Modelled from the spec (§4.3 Similarity Fallback), for comparison with
`fallbackScore`, the definition taken from the source: cosine similarity
affine-remapped to `[0,1]` via `(cos+1)/2`, with a neutral `0.5` when either
vector has zero norm. -/
def specFallbackScore (a b : List ℝ) : ℝ :=
  if norm a = 0 ∨ norm b = 0 then 1 / 2
  else (cosineSim a b + 1) / 2

/-- `PartnerInferenceEngine._calculate_match_score`: with a loaded model the
two feature records are encoded and scored by `ModelManager.predict`, and any
exception raised in the body is caught and turned into `0.0`; with no model
loaded the culture-vector similarity fallback is used.  The model branch
returns the predicted value unclamped. -/
def matchScore (st : EngineState) (q c : CompanyFeatures) : ℝ :=
  if st.model_manager.model_loaded then
    match st.model_manager.predict
        { dense := (prepareFeaturesForModel st.pyHash q).1
            ++ (prepareFeaturesForModel st.pyHash c).1,
          sparse_a := (prepareFeaturesForModel st.pyHash q).2,
          sparse_b := (prepareFeaturesForModel st.pyHash c).2 } with
    | .ok v => v
    | .error _ => 0
  else
    fallbackScore q.culture_vector c.culture_vector

/-- The four sub-scores returned by `_calculate_compatibility_factors`. -/
structure CompatibilityFactors where
  funding_stage_alignment : ℝ
  company_size_alignment : ℝ
  growth_trajectory_alignment : ℝ
  market_sentiment_alignment : ℝ

/-- `PartnerInferenceEngine._calculate_compatibility_factors`.  The body is
pure arithmetic over floats (`min`/`max` keep every denominator at least 1),
so its `except` branch is unreachable. -/
def compatibilityFactors (q c : CompanyFeatures) : CompatibilityFactors :=
  { funding_stage_alignment :=
      min q.traction_metrics.funding_amount c.traction_metrics.funding_amount
          / max q.traction_metrics.funding_amount
              (max c.traction_metrics.funding_amount 1) * 0.8 + 0.2
    company_size_alignment :=
      min q.traction_metrics.employee_count c.traction_metrics.employee_count
          / max q.traction_metrics.employee_count
              (max c.traction_metrics.employee_count 1) * 0.7 + 0.3
    growth_trajectory_alignment :=
      max 0 (1 - |q.traction_metrics.growth_rate - c.traction_metrics.growth_rate| / 100)
    market_sentiment_alignment :=
      max 0 (1 - |q.traction_metrics.market_sentiment - c.traction_metrics.market_sentiment|) }

/-- `PartnerInferenceEngine._calculate_timing_score` (candidate-sided). -/
def timingScore (c : CompanyFeatures) : ℝ :=
  (c.traction_metrics.market_sentiment + 1) / 2 * 0.6
    + min 1 (max 0 (c.traction_metrics.growth_rate / 50)) * 0.4

/-- `PartnerInferenceEngine._calculate_behavioral_alignment`: cosine
similarity of the culture vectors remapped to `[0,1]`, with a neutral `0.5`
when either vector has zero norm. -/
def behavioralAlignment (q c : CompanyFeatures) : ℝ :=
  if norm q.culture_vector = 0 ∨ norm c.culture_vector = 0 then 0.5
  else (cosineSim q.culture_vector c.culture_vector + 1) / 2

/-- The `reasoning` sub-dict of a recommendation. -/
structure Reasoning where
  compatibility_factors : CompatibilityFactors
  timing_score : ℝ
  behavioral_alignment : ℝ

/-- One recommendation entry assembled by `get_recommendations`.  The
`metadata.timestamp` field, a wall-clock reading, is not modelled;
`query_company` is the other metadata field. -/
structure Recommendation where
  company_id : String
  company_name : String
  match_score : ℝ
  confidence : ℝ
  reasoning : Reasoning
  query_company : String

/-- A caller-supplied filter dictionary.  Its contents are never inspected by
the code under verification (see `applyFilters`). -/
def Filters := List (String × String)

/-- `PartnerInferenceEngine._apply_filters`: the source is a placeholder that
returns all candidates unchanged, on the normal path and on the exception
path alike. -/
def applyFilters (candidates : List String) (_fs : Filters) : List String :=
  candidates

/-- Steps 2 of `get_recommendations`: enumerate all company ids, drop the
query id, and apply the caller's filters when some were provided
(`if filters:`). -/
def candidateList (st : EngineState) (company_id : String)
    (filters : Option Filters) : List String :=
  match filters with
  | some fs => applyFilters (st.feature_client.companies.filter (fun c => c ≠ company_id)) fs
  | none => st.feature_client.companies.filter (fun c => c ≠ company_id)

/-- The candidate loop of `get_recommendations`: candidates absent from the
batch-feature map are skipped (`continue`), candidates scoring below
`similarity_threshold` are discarded, and each survivor is assembled into a
`Recommendation` with `confidence = min(match_score * 1.1, 1.0)`. -/
def buildRecs (st : EngineState) (company_id : String) (qf : CompanyFeatures)
    (cands : List String) : List Recommendation :=
  cands.filterMap (fun cid =>
    match getBatchFeatures st.feature_client cands cid with
    | none => none
    | some cf =>
      if matchScore st qf cf ≥ st.config.similarity_threshold then
        some { company_id := cid
               company_name := cid
               match_score := matchScore st qf cf
               confidence := min (matchScore st qf cf * 1.1) 1
               reasoning :=
                 { compatibility_factors := compatibilityFactors qf cf
                   timing_score := timingScore cf
                   behavioral_alignment := behavioralAlignment qf cf }
               query_company := company_id }
      else none)

/-- The ordering used by `recommendations.sort(key=lambda x: x["match_score"],
reverse=True)`: descending match score. -/
def byScoreDesc (a b : Recommendation) : Prop := b.match_score ≤ a.match_score

instance : DecidableRel byScoreDesc := fun _ _ => Real.decidableLE _ _

instance : IsTotal Recommendation byScoreDesc :=
  ⟨fun a b => le_total b.match_score a.match_score⟩

instance : IsTrans Recommendation byScoreDesc :=
  ⟨fun _ _ _ h1 h2 => le_trans h2 h1⟩

/-- The list produced by `PartnerInferenceEngine.get_recommendations`.  When
the query company has no feature record the function returns the empty list.
Python's `list.sort` is a stable sort, and a stable sort under a total
transitive comparison is unique as a function, so it is embedded as
`List.insertionSort` (stable) under the descending-score comparison; the
sorted list is truncated to `top_k`. -/
def recommendList (st : EngineState) (company_id : String) (top_k : ℕ)
    (filters : Option Filters) : List Recommendation :=
  match st.feature_client.features company_id with
  | none => []
  | some qf =>
    ((buildRecs st company_id qf (candidateList st company_id filters)).insertionSort
        byScoreDesc).take top_k

/-- `PartnerInferenceEngine.get_recommendations` as the caller sees it: the
outer `except` re-raises any exception, but every awaited call in the body
handles its own errors (the feature client catches transport errors and the
per-candidate loop catches scoring errors), so the call always returns
normally with `recommendList`. -/
def getRecommendations (st : EngineState) (company_id : String) (top_k : ℕ)
    (filters : Option Filters) : Except String (List Recommendation) :=
  .ok (recommendList st company_id top_k filters)

/-- The per-query task body of `get_batch_recommendations`
(`process_company`): the awaited per-query call is passed in abstractly,
exactly as the orchestrator closes over `self.get_recommendations`; an
exception from it is caught and recorded as `(company_id, [])`. -/
def processCompany (call : String → Except String (List Recommendation))
    (cid : String) : String × List Recommendation :=
  match call cid with
  | .ok recs => (cid, recs)
  | .error _ => (cid, [])

/-- One `batch_results[company_id] = recommendations` assignment on the
Python result dict, modelled as an insertion-ordered association list. -/
def dictInsert (m : List (String × List Recommendation))
    (kv : String × List Recommendation) : List (String × List Recommendation) :=
  if m.any (fun e => e.1 == kv.1) then
    m.map (fun e => if e.1 == kv.1 then (e.1, kv.2) else e)
  else m ++ [kv]

/-- `get_batch_recommendations`, generic in the awaited per-query call:
`asyncio.gather` returns the task results in task order (the semaphore
bounds concurrency but never reorders results), and the result dict is built
by inserting each `(company_id, recommendations)` pair in that order. -/
def getBatchRecommendationsWith
    (call : String → Except String (List Recommendation))
    (company_ids : List String) : List (String × List Recommendation) :=
  (company_ids.map (processCompany call)).foldl dictInsert []

/-- `PartnerInferenceEngine.get_batch_recommendations`, with the engine's own
`get_recommendations` (filters defaulting to `None`) as the per-query call. -/
def getBatchRecommendations (st : EngineState) (company_ids : List String)
    (top_k : ℕ) : List (String × List Recommendation) :=
  getBatchRecommendationsWith (fun cid => getRecommendations st cid top_k none)
    company_ids

/-- `PartnerInferenceEngine.process_batch_recommendations`: the sequence of
Redis `setex` writes it performs, one per entry of the batch result, with key
`f"batch_recommendations:{company_id}"`, TTL `config.cache_ttl_seconds`, and
the (serialized) recommendation list as value. -/
def processBatchRecommendations (st : EngineState) (company_ids : List String)
    (top_k : ℕ) : List (String × ℕ × List Recommendation) :=
  (getBatchRecommendations st company_ids top_k).map
    (fun e => ("batch_recommendations:" ++ e.1, st.config.cache_ttl_seconds, e.2))

/-! Concrete states used by witnesses and counterexamples. -/

/-- A manager state holding a loaded model that scores every pair `0.9`. -/
def mmLoaded : ModelManager :=
  { model := some (fun _ => 0.9), model_loaded := true, model_version := "v1.0.0" }

/-- A manager state with no model loaded (`MODEL_VERSION` default). -/
def mmUnloaded : ModelManager :=
  { model := none, model_loaded := false, model_version := "v1.0.0" }

/-- A feature record with unit culture vector `[1]` and all-zero traction. -/
def featW (cid : String) : CompanyFeatures :=
  { company_id := cid, user_overlap_score := 0,
    traction_metrics :=
      { funding_amount := 0, employee_count := 0, growth_rate := 0, market_sentiment := 0 },
    culture_vector := [1] }

/-- A feature store with records for four companies whose enumeration order
`["q", "b", "a", "c"]` is neither ascending nor descending in the candidate
ids that remain after removing the query `"q"`. -/
def storeW : FeatureStore :=
  { companies := ["q", "b", "a", "c"],
    features := fun cid =>
      if cid = "q" ∨ cid = "b" ∨ cid = "a" ∨ cid = "c" then some (featW cid) else none }

/-- Engine state over `storeW` with no model loaded and default config. -/
def stW : EngineState :=
  { model_manager := mmUnloaded, feature_client := storeW, config := defaultConfig,
    pyHash := fun _ => 0 }

/-- The recommendation `get_recommendations` builds in state `stW` for any of
the candidates of query `"q"`. -/
def recW (cid : String) : Recommendation :=
  { company_id := cid, company_name := cid, match_score := 1, confidence := 1,
    reasoning :=
      { compatibility_factors :=
          { funding_stage_alignment := 0.2, company_size_alignment := 0.3,
            growth_trajectory_alignment := 1, market_sentiment_alignment := 1 },
        timing_score := 0.3, behavioral_alignment := 1 },
    query_company := "q" }

/-- Engine state over an empty feature store. -/
def stEmpty : EngineState :=
  { model_manager := mmUnloaded,
    feature_client := { companies := [], features := fun _ => none },
    config := defaultConfig, pyHash := fun _ => 0 }

/-- A fixed recommendation value for exercising the batch orchestrator. -/
def recX : Recommendation :=
  { company_id := "x", company_name := "x", match_score := 1, confidence := 1,
    reasoning :=
      { compatibility_factors :=
          { funding_stage_alignment := 0, company_size_alignment := 0,
            growth_trajectory_alignment := 0, market_sentiment_alignment := 0 },
        timing_score := 0, behavioral_alignment := 0 },
    query_company := "w" }

/-- A per-query call that fails on `"b"` and returns `[recX]` elsewhere. -/
def callX : String → Except String (List Recommendation) :=
  fun cid => if cid = "b" then .error "deliberate failure" else .ok [recX]

end

/-! Projection lemmas for the concrete states. -/

lemma stW_features (cid : String) :
    stW.feature_client.features cid =
      if cid = "q" ∨ cid = "b" ∨ cid = "a" ∨ cid = "c" then some (featW cid) else none := rfl

lemma stW_threshold : stW.config.similarity_threshold = 0.1 := rfl

/-! Generic facts about `get_recommendations`. -/

lemma mem_candidateList {st : EngineState} {company_id c : String}
    {fs : Option Filters} (h : c ∈ candidateList st company_id fs) : c ≠ company_id := by
  cases fs <;>
    · simp only [candidateList, applyFilters, List.mem_filter, decide_eq_true_eq] at h
      exact h.2

lemma mem_buildRecs {st : EngineState} {company_id : String} {qf : CompanyFeatures}
    {cands : List String} {r : Recommendation} (h : r ∈ buildRecs st company_id qf cands) :
    r.company_id ∈ cands ∧ r.confidence = min (r.match_score * 1.1) 1
      ∧ r.query_company = company_id := by
  unfold buildRecs at h
  rw [List.mem_filterMap] at h
  obtain ⟨a, ha, hf⟩ := h
  cases hg : getBatchFeatures st.feature_client cands a with
  | none => rw [hg] at hf; simp at hf
  | some cf =>
    rw [hg] at hf
    dsimp only at hf
    by_cases hth : matchScore st qf cf ≥ st.config.similarity_threshold
    · rw [if_pos hth] at hf
      have hr := Option.some.inj hf
      subst hr
      exact ⟨ha, rfl, rfl⟩
    · rw [if_neg hth] at hf; simp at hf

lemma mem_recommendList {st : EngineState} {company_id : String} {k : ℕ}
    {fs : Option Filters} {r : Recommendation} (h : r ∈ recommendList st company_id k fs) :
    r.company_id ∈ candidateList st company_id fs
      ∧ r.confidence = min (r.match_score * 1.1) 1 := by
  unfold recommendList at h
  cases hq : st.feature_client.features company_id with
  | none => rw [hq] at h; simp at h
  | some qf =>
    rw [hq] at h
    have h1 : r ∈ (buildRecs st company_id qf
        (candidateList st company_id fs)).insertionSort byScoreDesc :=
      List.take_subset k _ h
    rw [List.mem_insertionSort] at h1
    exact ⟨(mem_buildRecs h1).1, (mem_buildRecs h1).2.1⟩

lemma recommendList_length_le (st : EngineState) (company_id : String) (k : ℕ)
    (fs : Option Filters) : (recommendList st company_id k fs).length ≤ k := by
  unfold recommendList
  split
  · simp
  · apply List.length_take_le

lemma recommendList_sorted (st : EngineState) (company_id : String) (k : ℕ)
    (fs : Option Filters) : (recommendList st company_id k fs).Sorted byScoreDesc := by
  unfold recommendList
  split
  · exact List.sorted_nil
  · exact List.Pairwise.sublist (List.take_sublist _ _)
      (List.sorted_insertionSort byScoreDesc _)

/-! Concrete evaluations used by witnesses and counterexamples. -/

lemma norm_one_vec : norm [1] = 1 := by
  simp [norm, normSq]

lemma norm_zero_vec : norm [0] = 0 := by
  simp [norm, normSq]

lemma cosineSim_one : cosineSim [1] [1] = 1 := by
  simp [cosineSim, dotp, norm_one_vec]

lemma fallbackScore_one : fallbackScore [1] [1] = 1 := by
  have h : ¬(norm [1] = 0 ∨ norm [1] = 0) := by rw [norm_one_vec]; norm_num
  unfold fallbackScore
  rw [if_neg h, cosineSim_one]
  norm_num

lemma matchScore_stW (x y : String) : matchScore stW (featW x) (featW y) = 1 := by
  simp [matchScore, stW, mmUnloaded, featW, fallbackScore_one]

lemma compat_stW (x y : String) :
    compatibilityFactors (featW x) (featW y) =
      { funding_stage_alignment := 0.2, company_size_alignment := 0.3,
        growth_trajectory_alignment := 1, market_sentiment_alignment := 1 } := by
  norm_num [compatibilityFactors, featW]

lemma timing_stW (x : String) : timingScore (featW x) = 0.3 := by
  simp [timingScore, featW]
  norm_num

lemma behav_stW (x y : String) : behavioralAlignment (featW x) (featW y) = 1 := by
  have h : ¬(norm [1] = 0 ∨ norm [1] = 0) := by rw [norm_one_vec]; norm_num
  unfold behavioralAlignment
  simp only [featW]
  rw [if_neg h, cosineSim_one]
  norm_num

lemma candidateList_stW : candidateList stW "q" none = ["b", "a", "c"] := rfl

lemma buildRecs_stW :
    buildRecs stW "q" (featW "q") ["b", "a", "c"] = [recW "b", recW "a", recW "c"] := by
  have hmin : min ((1 : ℝ) * 1.1) 1 = 1 := min_eq_right (by norm_num)
  norm_num [buildRecs, getBatchFeatures, stW_features, stW_threshold, matchScore_stW,
    compat_stW, timing_stW, behav_stW, recW, hmin, List.filterMap_cons]

lemma evalStW : recommendList stW "q" 10 none = [recW "b", recW "a", recW "c"] := by
  have hq : stW.feature_client.features "q" = some (featW "q") := by
    rw [stW_features]; simp
  unfold recommendList
  rw [hq]
  dsimp only
  rw [candidateList_stW, buildRecs_stW]
  simp [List.insertionSort, List.orderedInsert, byScoreDesc, recW]

/-! Facts about the batch orchestrator's result dict. -/

lemma processCompany_fst (call : String → Except String (List Recommendation))
    (cid : String) : (processCompany call cid).1 = cid := by
  unfold processCompany
  cases call cid <;> rfl

lemma processCompany_eq (call : String → Except String (List Recommendation))
    (cid : String) :
    processCompany call cid
      = (cid, match call cid with | .ok r => r | .error _ => []) := by
  unfold processCompany
  cases call cid <;> rfl

lemma mem_dictInsert_keys {m : List (String × List Recommendation)}
    {kv e : String × List Recommendation} (h : e ∈ dictInsert m kv) :
    e.1 ∈ m.map Prod.fst ∨ e.1 = kv.1 := by
  unfold dictInsert at h
  split at h
  · rw [List.mem_map] at h
    obtain ⟨x, hx, he⟩ := h
    by_cases hb : (x.1 == kv.1) = true
    · rw [if_pos hb] at he
      subst he
      exact Or.inl (show x.1 ∈ m.map Prod.fst from List.mem_map_of_mem Prod.fst hx)
    · rw [if_neg hb] at he
      subst he
      exact Or.inl (List.mem_map_of_mem Prod.fst hx)
  · rcases List.mem_append.mp h with h1 | h1
    · exact Or.inl (List.mem_map_of_mem Prod.fst h1)
    · exact Or.inr (by rw [List.mem_singleton.mp h1])

lemma foldl_dictInsert_keys :
    ∀ (l : List (String × List Recommendation)) (acc : List (String × List Recommendation))
      (e : String × List Recommendation), e ∈ l.foldl dictInsert acc →
      e.1 ∈ acc.map Prod.fst ∨ e.1 ∈ l.map Prod.fst := by
  intro l
  induction l with
  | nil => exact fun acc e h => Or.inl (List.mem_map_of_mem Prod.fst h)
  | cons kv t ih =>
    intro acc e h
    rcases ih (dictInsert acc kv) e h with h1 | h1
    · rw [List.mem_map] at h1
      obtain ⟨x, hx, hx1⟩ := h1
      rcases mem_dictInsert_keys hx with h2 | h2
      · exact Or.inl (hx1 ▸ h2)
      · exact Or.inr (by rw [← hx1, h2]; exact List.mem_cons_self _ _)
    · exact Or.inr (List.mem_cons_of_mem _ h1)

lemma mem_getBatchKeys {st : EngineState} {ids : List String} {k : ℕ}
    {e : String × List Recommendation}
    (h : e ∈ getBatchRecommendations st ids k) : e.1 ∈ ids := by
  unfold getBatchRecommendations getBatchRecommendationsWith at h
  rcases foldl_dictInsert_keys _ _ _ h with h1 | h1
  · simp at h1
  · rw [List.map_map] at h1
    simpa [Function.comp, processCompany_fst] using h1

lemma dictInsert_append {m : List (String × List Recommendation)}
    {kv : String × List Recommendation}
    (h : ∀ e ∈ m, (e.1 == kv.1) = false) : dictInsert m kv = m ++ [kv] := by
  have hc : ¬(m.any (fun e => e.1 == kv.1) = true) := by
    rw [List.any_eq_true]
    rintro ⟨e, he, hbe⟩
    rw [h e he] at hbe
    exact Bool.false_ne_true hbe
  unfold dictInsert
  rw [if_neg hc]

lemma foldl_dictInsert_nodup :
    ∀ (l : List (String × List Recommendation)) (acc : List (String × List Recommendation)),
      (l.map Prod.fst).Nodup → (∀ kv ∈ l, ∀ e ∈ acc, (e.1 == kv.1) = false) →
      l.foldl dictInsert acc = acc ++ l := by
  intro l
  induction l with
  | nil => intro acc _ _; simp
  | cons kv t ih =>
    intro acc hnd hdisj
    have h1 : dictInsert acc kv = acc ++ [kv] :=
      dictInsert_append (fun e he => hdisj kv (List.mem_cons_self _ _) e he)
    have hnd' : (t.map Prod.fst).Nodup := (List.nodup_cons.mp (by simpa using hnd)).2
    have hk : kv.1 ∉ t.map Prod.fst := (List.nodup_cons.mp (by simpa using hnd)).1
    have hdisj' : ∀ kv' ∈ t, ∀ e ∈ acc ++ [kv], (e.1 == kv'.1) = false := by
      intro kv' hkv' e he
      rcases List.mem_append.mp he with h2 | h2
      · exact hdisj kv' (List.mem_cons_of_mem _ hkv') e h2
      · rw [List.mem_singleton.mp h2]
        rw [beq_eq_false_iff_ne]
        intro hEq
        exact hk (hEq ▸ List.mem_map_of_mem Prod.fst hkv')
    rw [List.foldl_cons, h1, ih (acc ++ [kv]) hnd' hdisj']
    simp

/-! Settled claims. -/

/-- Claim C2, counterexample: starting from a loaded model, a reload whose new
artifact fails to load leaves the manager with `loaded = false` and failing
scoring calls — the previously active model does not remain active as the
claim states. -/
theorem claim_C2_counterexample :
    (reloadModel none mmLoaded).2 = false
      ∧ (getModelStatus mmLoaded).loaded = true
      ∧ (getModelStatus (reloadModel none mmLoaded).1).loaded = false
      ∧ ((reloadModel none mmLoaded).1.predict
          { dense := [], sparse_a := [], sparse_b := [] }).isOk = false :=
  ⟨rfl, rfl, rfl, rfl⟩

/-- Claim C2, amended: if the new artifact fails to load, the reload operation
fails and the reported model version is unchanged, but the previous model has
already been discarded: the status reports `loaded = false` and scoring calls
fail (with `Model not loaded`) until a later successful load. -/
theorem claim_C2_amended (st : ModelManager) (input : ModelInput) :
    (reloadModel none st).2 = false
      ∧ (getModelStatus (reloadModel none st).1).version = (getModelStatus st).version
      ∧ (getModelStatus (reloadModel none st).1).loaded = false
      ∧ ((reloadModel none st).1.predict input).isOk = false := by
  cases h : st.model <;>
    simp [reloadModel, loadModel, getModelStatus, ModelManager.predict, Except.isOk,
      Except.toBool, h]

/-- Claim C3, counterexample: for a query company with no feature record,
`get_recommendations` returns the normal result `[]` (an `ok` value), not an
`UnknownCompany` error as the claim states. -/
theorem claim_C3_counterexample :
    stEmpty.feature_client.features "acme" = none
      ∧ getRecommendations stEmpty "acme" 10 none = .ok []
      ∧ (getRecommendations stEmpty "acme" 10 none).isOk = true :=
  ⟨rfl, rfl, rfl⟩

/-- Claim C3, amended: for every query company id whose feature lookup yields
no record, `get_recommendations` returns the empty list as a normal result
(it neither raises nor distinguishes this case from an empty candidate set). -/
theorem claim_C3_amended (st : EngineState) (company_id : String) (k : ℕ)
    (fs : Option Filters) (h : st.feature_client.features company_id = none) :
    getRecommendations st company_id k fs = .ok [] := by
  unfold getRecommendations recommendList
  rw [h]

/-- Witness for the amended claim C3 at a concrete state. -/
theorem claim_C3_witness :
    stEmpty.feature_client.features "acme" = none
      ∧ getRecommendations stEmpty "acme" 10 none = .ok [] :=
  ⟨rfl, claim_C3_amended stEmpty "acme" 10 none rfl⟩

/-- Claim C7: no recommendation returned by `get_recommendations` has
`company_id` equal to the query company id, in any state. -/
theorem claim_C7 (st : EngineState) (company_id : String) (k : ℕ)
    (fs : Option Filters) (r : Recommendation)
    (h : r ∈ recommendList st company_id k fs) : r.company_id ≠ company_id :=
  mem_candidateList (mem_recommendList h).1

/-- Claim C8: the funding-stage and company-size alignment sub-scores of the
compatibility analyzer are symmetric in the two feature records. -/
theorem claim_C8 (a b : CompanyFeatures) :
    (compatibilityFactors a b).funding_stage_alignment
        = (compatibilityFactors b a).funding_stage_alignment
      ∧ (compatibilityFactors a b).company_size_alignment
        = (compatibilityFactors b a).company_size_alignment := by
  refine ⟨?_, ?_⟩ <;>
    · simp only [compatibilityFactors]
      rw [min_comm, max_left_comm]

/-- Claim C9: every returned recommendation has
`confidence = min(match_score * 1.1, 1.0)`, hence `confidence ≤ 1`. -/
theorem claim_C9 (st : EngineState) (company_id : String) (k : ℕ)
    (fs : Option Filters) (r : Recommendation)
    (h : r ∈ recommendList st company_id k fs) :
    r.confidence = min (r.match_score * 1.1) 1 ∧ r.confidence ≤ 1 := by
  refine ⟨(mem_recommendList h).2, ?_⟩
  rw [(mem_recommendList h).2]
  exact min_le_right _ _

/-- Claim C10: the output of `get_recommendations` is independent of the
`filters` argument, because `_apply_filters` returns the candidate list
unchanged for every filter value. -/
theorem claim_C10 (st : EngineState) (company_id : String) (k : ℕ)
    (f1 f2 : Option Filters) :
    getRecommendations st company_id k f1 = getRecommendations st company_id k f2 := by
  have h : candidateList st company_id f1 = candidateList st company_id f2 := by
    cases f1 <;> cases f2 <;> rfl
  unfold getRecommendations recommendList
  rw [h]

/-- Claim C1, counterexample: the fallback score of two zero vectors is `0`,
not the `0.5` the claim states, and the fallback score of two orthogonal unit
vectors is `0` where the claimed remap `(cos+1)/2` gives `0.5`; the code
clamps the raw cosine instead of remapping it. -/
theorem claim_C1_counterexample :
    fallbackScore [0] [0] = 0 ∧ specFallbackScore [0] [0] = 1 / 2
      ∧ fallbackScore [1, 0] [0, 1] = 0 ∧ specFallbackScore [1, 0] [0, 1] = 1 / 2
      ∧ (0 : ℝ) ≠ 1 / 2 := by
  have hz : norm [0] = 0 ∨ norm [0] = 0 := Or.inl norm_zero_vec
  have hnz : ¬(norm [1, 0] = 0 ∨ norm [0, 1] = 0) := by
    have h1 : norm [1, 0] = 1 := by simp [norm, normSq]
    have h2 : norm [0, 1] = 1 := by simp [norm, normSq]
    rw [h1, h2]; norm_num
  have hcos : cosineSim [1, 0] [0, 1] = 0 := by
    simp [cosineSim, dotp]
  refine ⟨?_, ?_, ?_, ?_, by norm_num⟩
  · unfold fallbackScore; rw [if_pos hz]
  · unfold specFallbackScore; rw [if_pos hz]
  · unfold fallbackScore; rw [if_neg hnz, hcos]; norm_num
  · unfold specFallbackScore; rw [if_neg hnz, hcos]; norm_num

/-- Claim C1, amended: the similarity-fallback match score equals
`max(0, min(1, cos(a,b)))` when both vectors have nonzero norm, equals
exactly `0` when either vector has zero norm, and in all cases lies in
`[0, 1]`. -/
theorem claim_C1_amended (a b : List ℝ) :
    0 ≤ fallbackScore a b ∧ fallbackScore a b ≤ 1
      ∧ ((norm a = 0 ∨ norm b = 0) → fallbackScore a b = 0)
      ∧ (¬(norm a = 0 ∨ norm b = 0) →
          fallbackScore a b = max 0 (min 1 (cosineSim a b))) := by
  unfold fallbackScore
  by_cases h : norm a = 0 ∨ norm b = 0
  · rw [if_pos h]
    exact ⟨le_refl 0, zero_le_one, fun _ => rfl, fun hn => absurd h hn⟩
  · rw [if_neg h]
    refine ⟨le_max_left 0 _, ?_, fun hc => absurd hc h, fun _ => rfl⟩
    exact max_le zero_le_one (min_le_left 1 _)

/-- Witness for the amended claim C1: both the zero-norm branch and the
clamped-cosine branch, evaluated at concrete vectors. -/
theorem claim_C1_witness :
    fallbackScore [0] [1] = 0
      ∧ fallbackScore [1] [1] = max 0 (min 1 (cosineSim [1] [1])) :=
  ⟨(claim_C1_amended [0] [1]).2.2.1 (Or.inl norm_zero_vec),
   (claim_C1_amended [1] [1]).2.2.2 (by rw [norm_one_vec]; norm_num)⟩

/-- Claim C4, counterexample: in state `stW` the three candidates all score
`1`, yet the returned order is the candidate-enumeration order
`["b", "a", "c"]`, which is neither ascending nor descending in candidate
id — ties are not broken by candidate id. -/
theorem claim_C4_counterexample :
    (recommendList stW "q" 10 none).map Recommendation.company_id = ["b", "a", "c"]
      ∧ (recommendList stW "q" 10 none).map Recommendation.match_score = [1, 1, 1]
      ∧ (["b", "a", "c"] : List String) ≠ ["a", "b", "c"]
      ∧ (["b", "a", "c"] : List String) ≠ ["c", "b", "a"] := by
  refine ⟨?_, ?_, by decide, by decide⟩
  · rw [evalStW]; simp [recW]
  · rw [evalStW]; simp [recW]

/-- Claim C4, amended: the returned list has length at most `topK` and is
sorted in descending order of `match_score`; equal-score ties keep the
candidate-enumeration order (the sort is stable), not candidate-id order —
witnessed by the concrete state `stW`. -/
theorem claim_C4_amended :
    (∀ (st : EngineState) (company_id : String) (k : ℕ) (fs : Option Filters),
        (recommendList st company_id k fs).length ≤ k
          ∧ (recommendList st company_id k fs).Sorted byScoreDesc)
      ∧ (recommendList stW "q" 10 none).map Recommendation.company_id = ["b", "a", "c"]
      ∧ (recommendList stW "q" 10 none).map Recommendation.match_score = [1, 1, 1] := by
  refine ⟨fun st company_id k fs =>
    ⟨recommendList_length_le st company_id k fs,
     recommendList_sorted st company_id k fs⟩, ?_, ?_⟩
  · rw [evalStW]; simp [recW]
  · rw [evalStW]; simp [recW]

/-- Claim C5, counterexample: the cache key written by the background batch is
`"batch_recommendations:{queryId}"`, not `"batch:{queryId}"` as the claim
states (the TTL part of the claim is right). -/
theorem claim_C5_counterexample :
    processBatchRecommendations stEmpty ["a"] 10
        = [("batch_recommendations:a", 3600, [])]
      ∧ ("batch_recommendations:a" == "batch:a") = false :=
  ⟨rfl, by decide⟩

/-- Claim C5, amended: each completed query's list is written under the key
`"batch_recommendations:{queryId}"` with TTL `config.cache_ttl_seconds`,
whose default is 3600 seconds (1 hour). -/
theorem claim_C5_amended :
    (∀ (st : EngineState) (ids : List String) (k : ℕ)
        (w : String × ℕ × List Recommendation),
        w ∈ processBatchRecommendations st ids k →
          (∃ cid ∈ ids, w.1 = "batch_recommendations:" ++ cid)
            ∧ w.2.1 = st.config.cache_ttl_seconds)
      ∧ defaultConfig.cache_ttl_seconds = 3600 := by
  refine ⟨?_, rfl⟩
  intro st ids k w hw
  unfold processBatchRecommendations at hw
  rw [List.mem_map] at hw
  obtain ⟨e, he, rfl⟩ := hw
  exact ⟨⟨e.1, mem_getBatchKeys he, rfl⟩, rfl⟩

/-- Witness for the amended claim C5 at a concrete state and cache entry. -/
theorem claim_C5_witness :
    (∃ cid ∈ (["a"] : List String),
        ("batch_recommendations:a", (3600 : ℕ), ([] : List Recommendation)).1
          = "batch_recommendations:" ++ cid)
      ∧ ("batch_recommendations:a", (3600 : ℕ), ([] : List Recommendation)).2.1
          = stEmpty.config.cache_ttl_seconds :=
  claim_C5_amended.1 stEmpty ["a"] 10 ("batch_recommendations:a", 3600, []) (by
    rw [show processBatchRecommendations stEmpty ["a"] 10
        = [("batch_recommendations:a", 3600, [])] from rfl]
    exact List.mem_singleton.mpr rfl)

/-- Claim C6: for distinct query ids the batch orchestrator returns exactly
one entry per id, in order; an id whose per-query call fails is mapped to the
empty list, and the other entries are unaffected. -/
theorem claim_C6 (call : String → Except String (List Recommendation))
    (ids : List String) (h : ids.Nodup) :
    getBatchRecommendationsWith call ids
        = ids.map (fun cid => (cid, match call cid with | .ok r => r | .error _ => []))
      ∧ (getBatchRecommendationsWith call ids).length = ids.length := by
  have hfun : processCompany call
      = fun cid => (cid, match call cid with | .ok r => r | .error _ => []) :=
    funext (processCompany_eq call)
  have hkeys : ((ids.map (processCompany call)).map Prod.fst).Nodup := by
    rw [List.map_map]
    have hid : (Prod.fst ∘ processCompany call) = fun cid => cid :=
      funext (fun cid => processCompany_fst call cid)
    rw [hid, List.map_id']
    exact h
  have heq : getBatchRecommendationsWith call ids
      = ids.map (fun cid => (cid, match call cid with | .ok r => r | .error _ => [])) := by
    unfold getBatchRecommendationsWith
    rw [foldl_dictInsert_nodup _ [] hkeys (fun kv _ e he => absurd he (List.not_mem_nil e))]
    rw [List.nil_append, hfun]
  exact ⟨heq, by rw [heq, List.length_map]⟩

/-- Witness for claim C6: three distinct ids with the middle per-query call
failing deliberately; the failing id maps to `[]` and the others keep their
results. -/
theorem claim_C6_witness :
    (["a", "b", "c"] : List String).Nodup
      ∧ getBatchRecommendationsWith callX ["a", "b", "c"]
          = [("a", [recX]), ("b", []), ("c", [recX])]
      ∧ (getBatchRecommendationsWith callX ["a", "b", "c"]).length = 3 := by
  have h := claim_C6 callX ["a", "b", "c"] (by decide)
  refine ⟨by decide, ?_, ?_⟩
  · rw [h.1]; rfl
  · rw [h.2]; rfl

/-- Witness for claim C7: a concrete returned recommendation whose candidate
id differs from the query id. -/
theorem claim_C7_witness :
    recW "b" ∈ recommendList stW "q" 10 none ∧ (recW "b").company_id ≠ "q" := by
  have hm : recW "b" ∈ recommendList stW "q" 10 none := by
    rw [evalStW]; exact List.mem_cons_self _ _
  exact ⟨hm, claim_C7 stW "q" 10 none (recW "b") hm⟩

/-- Witness for claim C9: the confidence equation evaluated on a concrete
returned recommendation. -/
theorem claim_C9_witness :
    (recW "b").confidence = min ((recW "b").match_score * 1.1) 1
      ∧ (recW "b").confidence ≤ 1 :=
  claim_C9 stW "q" 10 none (recW "b") (by
    rw [evalStW]; exact List.mem_cons_self _ _)

end PartnerRecommender
